import Mathlib

/-!
Verification of the session-aware scheduling and dispatch core of a
stock-alert messaging service.  The Python source (app.py,
subscriber_store.py, stock_analyzer.py, whatsapp_service.py) is embedded
shallowly: pure functions become Lean functions over Nat / String / List,
the subscriber store becomes explicit state passing on a list of strings,
fallible external calls become Except-valued oracles, and the webhook
handler becomes a function from its inputs to an explicit effect record
(response, resulting store, attempted sends, spawned background task).
-/

set_option maxRecDepth 8000

namespace StockAlerts

/-! ## Session classifier (app.py, market_session)

The Python function classifies a localized timestamp into one of five
phase strings.  We embed the timestamp as (weekday, hour, minute) with
Python weekday convention: Monday = 0, ..., Sunday = 6. -/

def market_session (weekday hour minute : Nat) : String :=
  if 5 ≤ weekday then "weekend"
  else
    let mins := hour * 60 + minute
    if mins < 9 * 60 + 15 then "pre_open"
    else if mins ≤ 15 * 60 + 30 then "market"
    else if mins ≤ 18 * 60 then "post_close"
    else "night"

/-- C1: market_session returns exactly one of the five phase strings, and
the five phases partition the (weekday, minute-of-day) space with the
stated boundaries: Saturday/Sunday (weekday ≥ 5) gives weekend; otherwise
with m = hour*60+minute, m < 555 gives pre_open, 555 ≤ m ≤ 930 gives
market (so exactly 15:30 is market), 930 < m ≤ 1080 gives post_close (so
exactly 18:00 is post_close), and m > 1080 gives night. -/
theorem market_session_partition (wd h m : Nat) :
    (market_session wd h m = "weekend" ↔ 5 ≤ wd) ∧
    (market_session wd h m = "pre_open" ↔ wd < 5 ∧ h * 60 + m < 555) ∧
    (market_session wd h m = "market" ↔
      wd < 5 ∧ 555 ≤ h * 60 + m ∧ h * 60 + m ≤ 930) ∧
    (market_session wd h m = "post_close" ↔
      wd < 5 ∧ 930 < h * 60 + m ∧ h * 60 + m ≤ 1080) ∧
    (market_session wd h m = "night" ↔ wd < 5 ∧ 1080 < h * 60 + m) ∧
    market_session 0 15 30 = "market" ∧
    market_session 0 18 0 = "post_close" ∧
    market_session wd h m ∈ ["weekend", "pre_open", "market", "post_close", "night"] := by
  simp only [market_session]
  split_ifs with h1 h2 h3 h4 <;> simp_all <;> omega

/-! ## Subscriber store (subscriber_store.py)

The store is a JSON file holding a list of address strings; we embed its
state as a list of strings.  Both add and remove first normalize the
incoming address with the Python expression
number.replace("whatsapp:", ""), which removes every non-overlapping
occurrence of the pattern, scanning left to right.  pyReplaceWA models
exactly that scan for the fixed pattern "whatsapp:". -/

def pyReplaceWA : List Char → List Char
  | 'w' :: 'h' :: 'a' :: 't' :: 's' :: 'a' :: 'p' :: 'p' :: ':' :: rest =>
      pyReplaceWA rest
  | c :: rest => c :: pyReplaceWA rest
  | [] => []

def stripWhatsapp (s : String) : String :=
  ⟨pyReplaceWA s.data⟩

def SubscriberStore.add (subs : List String) (number : String) : List String :=
  let num := stripWhatsapp number
  if num ∈ subs then subs else subs ++ [num]

def SubscriberStore.remove (subs : List String) (number : String) : List String :=
  let num := stripWhatsapp number
  subs.filter (fun s => s ≠ num)

theorem stripWhatsapp_drops_head (x : String) :
    stripWhatsapp ("whatsapp:" ++ x) = stripWhatsapp x := by
  unfold stripWhatsapp
  rw [String.data_append]
  rfl

/-- C5: subscription commands are idempotent on the subscriber store.
The store maintains set semantics (no duplicates), embodied by the
Nodup hypothesis, and add/remove preserve it; adding twice leaves
exactly one entry for the normalized address; adding an already-present
address leaves the store unchanged; removing an absent address leaves
the store unchanged (and, being total, raises no error). -/
theorem subscriber_store_idempotent (s : List String) (x : String)
    (hnd : s.Nodup) :
    SubscriberStore.add (SubscriberStore.add s x) x = SubscriberStore.add s x ∧
    (SubscriberStore.add (SubscriberStore.add s x) x).count (stripWhatsapp x) = 1 ∧
    (stripWhatsapp x ∈ s → SubscriberStore.add s x = s) ∧
    (stripWhatsapp x ∉ s → SubscriberStore.remove s x = s) ∧
    (SubscriberStore.add s x).Nodup ∧
    (SubscriberStore.remove s x).Nodup := by
  have hfil : (s.filter (fun t => t ≠ stripWhatsapp x)).Nodup :=
    List.Nodup.filter _ hnd
  unfold SubscriberStore.add SubscriberStore.remove
  by_cases hmem : stripWhatsapp x ∈ s
  · refine ⟨by simp [hmem], ?_, fun _ => by simp [hmem], fun hn => absurd hmem hn,
      by simp [hmem, hnd], hfil⟩
    simp [hmem, List.count_eq_one_of_mem hnd hmem]
  · have hmem2 : stripWhatsapp x ∈ s ++ [stripWhatsapp x] := by simp
    refine ⟨by simp [hmem, hmem2], ?_, fun hin => absurd hin hmem, ?_, ?_, hfil⟩
    · simp [hmem, hmem2, List.count_append, List.count_eq_zero.mpr hmem]
    · intro _
      rw [List.filter_eq_self]
      intro a ha
      simp only [ne_eq, decide_not, Bool.not_eq_true', decide_eq_false_iff_not]
      exact fun heq => hmem (heq ▸ ha)
    · show (if stripWhatsapp x ∈ s then s else s ++ [stripWhatsapp x]).Nodup
      rw [if_neg hmem]
      exact hnd.append (List.nodup_singleton _) (List.disjoint_singleton.2 hmem)

/-- Witness for C5 at a concrete store and address. -/
theorem subscriber_store_idempotent_witness :
    (["+911234"] : List String).Nodup ∧
    (SubscriberStore.add (SubscriberStore.add ["+911234"] "+919999") "+919999"
        = SubscriberStore.add ["+911234"] "+919999" ∧
      (SubscriberStore.add (SubscriberStore.add ["+911234"] "+919999") "+919999").count
          (stripWhatsapp "+919999") = 1 ∧
      (stripWhatsapp "+919999" ∈ ["+911234"] →
        SubscriberStore.add ["+911234"] "+919999" = ["+911234"]) ∧
      (stripWhatsapp "+919999" ∉ ["+911234"] →
        SubscriberStore.remove ["+911234"] "+919999" = ["+911234"]) ∧
      (SubscriberStore.add ["+911234"] "+919999").Nodup ∧
      (SubscriberStore.remove ["+911234"] "+919999").Nodup) :=
  ⟨by decide, subscriber_store_idempotent ["+911234"] "+919999" (by decide)⟩

/-- C7: address normalization equivalence — adding or removing a
"whatsapp:"-prefixed form of an address has exactly the same effect on
the store as adding or removing the bare address, so the two forms
denote the identical subscriber. -/
theorem subscriber_store_normalization (s : List String) (x : String) :
    SubscriberStore.add s ("whatsapp:" ++ x) = SubscriberStore.add s x ∧
    SubscriberStore.remove s ("whatsapp:" ++ x) = SubscriberStore.remove s x := by
  unfold SubscriberStore.add SubscriberStore.remove
  rw [stripWhatsapp_drops_head]
  exact ⟨rfl, rfl⟩

/-! ## Message formatters (app.py, _fmt_stock / _build / format_*)

A report is a dict produced by the external generator; the formatters
access it only with defensive .get calls.  We embed the accessed fields
as optional strings (the rendered form of whatever value the dict holds)
and the stocks entry as an optional list.  The formatters call now_ist()
for the header timestamp; we pass that rendered timestamp string as an
explicit argument dtStr. -/

structure Stock where
  symbol : Option String
  exchange : Option String
  entry_low : Option String
  entry_high : Option String
  target : Option String
  stop_loss : Option String
  holding_period : Option String

structure Report where
  stocks : Option (List Stock)
  nifty_open_estimate : Option String

/-- Python slicing msg[:1590] on code points. -/
def pySlice1590 (s : String) : String :=
  ⟨s.data.take 1590⟩

def fmt_stock (i : Nat) (s : Stock) (show_hold : Bool) : String :=
  let lines := [
    toString i ++ ". " ++ s.symbol.getD "?" ++ " [" ++ s.exchange.getD "NSE" ++ "]",
    "Entry  : ₹" ++ s.entry_low.getD "?" ++ " – ₹" ++ s.entry_high.getD "?",
    "Target : ₹" ++ s.target.getD "?",
    "SL     : ₹" ++ s.stop_loss.getD "?"]
  let lines :=
    if show_hold then lines ++ ["Hold   : " ++ s.holding_period.getD "Intraday"]
    else lines
  String.intercalate "\n" lines

def build (header : String) (stocks : List Stock) (show_hold : Bool)
    (note : String) : String :=
  let parts := [header] ++
    ((stocks.take 3).enum.map fun p => "\n" ++ fmt_stock (p.1 + 1) p.2 show_hold)
  let parts := if note ≠ "" then parts ++ ["\n" ++ note] else parts
  pySlice1590 (String.intercalate "\n" parts)

def format_scheduled_message (dtStr : String) (report : Report)
    (label mode : String) : String :=
  let hdr := label ++ " | " ++ dtStr ++ " IST"
  build hdr (report.stocks.getD []) (mode ≠ "intraday") ""

def format_adhoc_message (dtStr : String) (report : Report) : String :=
  let hdr := "Picks | " ++ dtStr ++ " IST"
  build hdr (report.stocks.getD []) true ""

def format_pre_open_message (dtStr : String) (report : Report) : String :=
  let hdr := "Pre-Market | " ++ dtStr ++ " IST"
  let note := "Gift Nifty: " ++ report.nifty_open_estimate.getD "N/A"
  build hdr (report.stocks.getD []) true note

def format_night_message (dtStr : String) (report : Report) : String :=
  let hdr := "Tomorrow Picks | " ++ dtStr ++ " IST"
  let note := "Nifty est: " ++ report.nifty_open_estimate.getD "N/A"
  build hdr (report.stocks.getD []) true note

def format_weekend_message (dtStr : String) (report : Report) : String :=
  let hdr := "Next Week Picks | " ++ dtStr ++ " IST"
  build hdr (report.stocks.getD []) true ""

/-- C2: every formatter is total (in particular it is defined on a report
with all optional fields absent) and its output, for every report — with
arbitrarily many or arbitrarily large stock entries — never exceeds 1590
characters, thanks to the hard truncation in build. -/
theorem formatters_length_bound (dtStr label mode : String) (r : Report) :
    (format_scheduled_message dtStr r label mode).length ≤ 1590 ∧
    (format_adhoc_message dtStr r).length ≤ 1590 ∧
    (format_pre_open_message dtStr r).length ≤ 1590 ∧
    (format_night_message dtStr r).length ≤ 1590 ∧
    (format_weekend_message dtStr r).length ≤ 1590 := by
  have hb : ∀ s : String, (pySlice1590 s).length ≤ 1590 := by
    intro s
    show (s.data.take 1590).length ≤ 1590
    rw [List.length_take]
    exact Nat.min_le_left _ _
  exact ⟨hb _, hb _, hb _, hb _, hb _⟩

theorem build_congr_take (hdr : String) (sh : Bool) (nt : String)
    (s1 s2 : List Stock) (h : s1.take 3 = s2.take 3) :
    build hdr s1 sh nt = build hdr s2 sh nt := by
  unfold build
  rw [h]

theorem stocks_take_key (o : Option (List Stock)) (k : Nat) (hk : 3 ≤ k) :
    ((o.map fun l => l.take k).getD []).take 3 = (o.getD []).take 3 := by
  cases o with
  | none => rfl
  | some l => simp [List.take_take, Nat.min_eq_left hk]

/-- C3: the same-day and ad-hoc formatters render at most the first 3
stock picks (the output is unchanged when the report's stocks are cut to
the first 3), and the night and weekend formatters render at most the
first 4 stock picks (the output is unchanged when cut to the first 4). -/
theorem formatters_pick_limits (dtStr label mode : String) (r : Report) :
    format_scheduled_message dtStr
        {r with stocks := r.stocks.map fun l => l.take 3} label mode
      = format_scheduled_message dtStr r label mode ∧
    format_adhoc_message dtStr {r with stocks := r.stocks.map fun l => l.take 3}
      = format_adhoc_message dtStr r ∧
    format_pre_open_message dtStr {r with stocks := r.stocks.map fun l => l.take 3}
      = format_pre_open_message dtStr r ∧
    format_night_message dtStr {r with stocks := r.stocks.map fun l => l.take 4}
      = format_night_message dtStr r ∧
    format_weekend_message dtStr {r with stocks := r.stocks.map fun l => l.take 4}
      = format_weekend_message dtStr r := by
  refine ⟨?_, ?_, ?_, ?_, ?_⟩ <;>
    exact build_congr_take _ _ _ _ _
      (stocks_take_key r.stocks _ (by omega))

/-! ## Broadcast (app.py, _broadcast)

The delivery transport is an external collaborator; we embed it as an
oracle from an address to a delivery outcome.  _broadcast reads the full
subscriber list once, returns immediately when it is empty, and otherwise
loops over every number, catching a per-recipient delivery failure and
moving on.  The embedding returns the list of attempted sends, each
paired with whether the delivery call succeeded. -/

def broadcast (send : String → Except String Unit) (store : List String) :
    List (String × Bool) :=
  let numbers := store
  if numbers.isEmpty then []
  else numbers.map fun num =>
    (num, match send num with
          | Except.ok _ => true
          | Except.error _ => false)

/-- C4: broadcast over the empty subscriber set performs zero delivery
calls and does not fail; over N subscribers it attempts a delivery call
for every one of the N subscribers, in store order, even when some calls
fail — and the successful attempts are exactly those whose delivery call
succeeds, so a failure for one recipient never prevents the rest. -/
theorem broadcast_attempts_all (send : String → Except String Unit)
    (subs : List String) :
    broadcast send [] = [] ∧
    (broadcast send subs).map Prod.fst = subs ∧
    (broadcast send subs).length = subs.length ∧
    (broadcast send subs).countP (fun p => p.2) =
      subs.countP (fun n => match send n with
        | Except.ok _ => true
        | Except.error _ => false) := by
  refine ⟨rfl, ?_, ?_, ?_⟩
  · cases subs with
    | nil => rfl
    | cons a l =>
      have : (List.map (fun num => (num, match send num with
          | Except.ok _ => true
          | Except.error _ => false)) (a :: l)).map Prod.fst = a :: l := by
        rw [List.map_map]
        exact List.map_id _
      exact this
  · cases subs with
    | nil => rfl
    | cons a l => exact List.length_map _ _
  · cases subs with
    | nil => rfl
    | cons a l => exact List.countP_map _ _ _

/-! ## Dispatch mode selection (app.py, run_scheduled_alert / handle_adhoc)

Each mode calls a distinct generator operation of the external analyzer;
we embed the selection as a function into an inductive of generator
calls.  run_scheduled_alert receives the (hour, minute) of the firing
slot; handle_adhoc receives the classified session string and the current
hour. -/

inductive GenCall where
  | marketOpen
  | intraday (hour : Nat)
  | closing
  | adhoc (hour : Nat)
  | preOpen
  | nextDay
  | weekend
deriving DecidableEq

def SCHEDULE : List (Nat × Nat) :=
  [(9, 20), (10, 0), (11, 0), (12, 0), (13, 0), (14, 0), (14, 30), (15, 0)]

def run_scheduled_alert_gen (hour minute : Nat) : GenCall :=
  if hour = 9 ∧ minute = 20 then GenCall.marketOpen
  else if hour = 15 then GenCall.closing
  else GenCall.intraday hour

def handle_adhoc_gen (session : String) (hour : Nat) : GenCall :=
  if session = "market" then GenCall.adhoc hour
  else if session = "pre_open" then GenCall.preOpen
  else if session = "night" ∨ session = "post_close" then GenCall.nextDay
  else GenCall.weekend

/-- C6: a scheduled firing at (9,20) calls the market-open generator, a
firing at hour 15 calls the closing generator, and every other fixed
slot of SCHEDULE calls the intraday generator parameterized by the
triggering hour; an ad-hoc request classified market calls the adhoc
generator with the current hour, pre_open the pre-open generator,
post_close and night the next-day generator, and weekend the weekend
generator. -/
theorem dispatch_mode_selection :
    SCHEDULE = [(9, 20), (10, 0), (11, 0), (12, 0), (13, 0), (14, 0), (14, 30), (15, 0)] ∧
    run_scheduled_alert_gen 9 20 = GenCall.marketOpen ∧
    run_scheduled_alert_gen 15 0 = GenCall.closing ∧
    run_scheduled_alert_gen 10 0 = GenCall.intraday 10 ∧
    run_scheduled_alert_gen 11 0 = GenCall.intraday 11 ∧
    run_scheduled_alert_gen 12 0 = GenCall.intraday 12 ∧
    run_scheduled_alert_gen 13 0 = GenCall.intraday 13 ∧
    run_scheduled_alert_gen 14 0 = GenCall.intraday 14 ∧
    run_scheduled_alert_gen 14 30 = GenCall.intraday 14 ∧
    (∀ h, handle_adhoc_gen "market" h = GenCall.adhoc h) ∧
    (∀ h, handle_adhoc_gen "pre_open" h = GenCall.preOpen) ∧
    (∀ h, handle_adhoc_gen "post_close" h = GenCall.nextDay) ∧
    (∀ h, handle_adhoc_gen "night" h = GenCall.nextDay) ∧
    (∀ h, handle_adhoc_gen "weekend" h = GenCall.weekend) := by
  refine ⟨rfl, by decide, by decide, by decide, by decide, by decide, by decide,
    by decide, by decide, fun h => ?_, fun h => ?_, fun h => ?_, fun h => ?_,
    fun h => ?_⟩ <;> rfl

/-! ## Intraday prompt context (stock_analyzer.py, intraday_prompt)

The Python function builds an hour-keyed dict literal and reads it with
.get(hour, fallback).  The dict literal is written with the key 14 twice;
Python dict-literal construction lets a later duplicate key silently
overwrite an earlier one.  We embed the literal as the association list
exactly as written in the source, and dict construction plus lookup as
pyDictGet: the last binding for a key wins. -/

def ctx10 : String :=
  "morning session (first hour complete). Look for opening range breakouts and gap fill trades."
def ctx11 : String :=
  "mid-morning. Momentum established. Look for trend continuation and sector leaders."
def ctx12 : String :=
  "approaching noon. Pre-lunch positioning. Watch for reversal signals."
def ctx13 : String :=
  "post-lunch. Institutional activity picks up. Look for accumulation patterns."
def ctx14a : String :=
  "afternoon. F&O expiry awareness. Look for high-volume breakouts."
def ctx14b : String :=
  "pre-close setup. Last 1.5 hours. Strong momentum trades with tight stops."

def intraday_context_entries : List (Nat × String) :=
  [(10, ctx10), (11, ctx11), (12, ctx12), (13, ctx13), (14, ctx14a), (14, ctx14b)]

def pyDictGet (entries : List (Nat × String)) (k : Nat) : Option String :=
  (entries.reverse.find? fun p => p.1 == k).map Prod.snd

def intraday_context (hour : Nat) : String :=
  (pyDictGet intraday_context_entries hour).getD
    ("current " ++ toString hour ++ ":00 session.")

def json_schema_stocks (n : Nat) (hold : String) : String :=
  "Array of exactly " ++ toString n ++ " stock objects:\n\x7b\n  \"symbol\": \"NSE symbol (e.g. RELIANCE)\",\n  \"exchange\": \"NSE or BSE\",\n  \"sector\": \"sector name\",\n  \"reason\": \"2-sentence catalyst + technical setup\",\n  \"entry_low\": number,\n  \"entry_high\": number,\n  \"target\": number,\n  \"stop_loss\": number,\n  \"upside\": number (percentage),\n  \"risk_reward\": \"1:2 or better\",\n  \"holding_period\": \"" ++ hold ++ "\"\n\x7d"

def intraday_prompt (hour : Nat) : String :=
  "It is currently " ++ toString hour ++ ":00 IST. Market context: " ++
    intraday_context hour ++
    "\n\nSearch for: current Nifty 50 level, top NSE gainers/volume leaders right now,\nintraday breakout stocks, MACD crossovers on 15-min charts, RSI extremes.\n\nReturn this JSON:\n\x7b\n  \"sentiment\": \"Bullish | Bearish | Neutral\",\n  \"theme\": \"current intraday theme\",\n  \"nifty_level\": \"current Nifty level\",\n  \"nifty_support\": \"intraday support\",\n  \"nifty_resistance\": \"intraday resistance\",\n  \"stocks\": " ++
    json_schema_stocks 3 "Intraday only" ++
    ",\n  \"sectors_to_watch\": [\"sector1\", \"sector2\"],\n  \"avoid_sectors\": [],\n  \"disclaimer\": \"Educational purposes only. Not SEBI registered. DYOR.\"\n\x7d"

/-- C8: the hour-keyed context dict literal contains the key 14 twice
with different texts, and the second binding silently shadows the first:
intraday_prompt 14 embeds the pre-close setup text ctx14b, not the
afternoon F&O text ctx14a, while the other listed hours 10–13 map to
their single listed texts and any unlisted hour maps to the generic
fallback. -/
theorem intraday_context_shadowing (h : Nat)
    (hu : h ∉ ([10, 11, 12, 13, 14] : List Nat)) :
    (intraday_context_entries.filter fun p => p.1 == 14).map Prod.snd
      = [ctx14a, ctx14b] ∧
    ctx14a ≠ ctx14b ∧
    intraday_context 14 = ctx14b ∧
    intraday_context 14 ≠ ctx14a ∧
    intraday_context 10 = ctx10 ∧
    intraday_context 11 = ctx11 ∧
    intraday_context 12 = ctx12 ∧
    intraday_context 13 = ctx13 ∧
    intraday_context h = "current " ++ toString h ++ ":00 session." ∧
    (∃ a b, intraday_prompt 14 = a ++ ctx14b ++ b) := by
  have hfall : intraday_context h = "current " ++ toString h ++ ":00 session." := by
    have hnone : pyDictGet intraday_context_entries h = none := by
      unfold pyDictGet
      rw [List.find?_eq_none.mpr]
      · rfl
      · intro p hp
        simp [intraday_context_entries] at hp
        simp at hu
        rcases hp with h1 | h1 | h1 | h1 | h1 | h1 <;> rw [h1] <;> simp <;> omega
    rw [intraday_context, hnone]
    rfl
  refine ⟨by decide, by decide, by decide, by decide, by decide, by decide,
    by decide, by decide, hfall, ?_⟩
  exact ⟨"It is currently 14:00 IST. Market context: ",
    "\n\nSearch for: current Nifty 50 level, top NSE gainers/volume leaders right now,\nintraday breakout stocks, MACD crossovers on 15-min charts, RSI extremes.\n\nReturn this JSON:\n\x7b\n  \"sentiment\": \"Bullish | Bearish | Neutral\",\n  \"theme\": \"current intraday theme\",\n  \"nifty_level\": \"current Nifty level\",\n  \"nifty_support\": \"intraday support\",\n  \"nifty_resistance\": \"intraday resistance\",\n  \"stocks\": " ++
      json_schema_stocks 3 "Intraday only" ++
      ",\n  \"sectors_to_watch\": [\"sector1\", \"sector2\"],\n  \"avoid_sectors\": [],\n  \"disclaimer\": \"Educational purposes only. Not SEBI registered. DYOR.\"\n\x7d",
    by decide⟩

/-- Witness for C8 at the concrete unlisted hour 16. -/
theorem intraday_context_shadowing_witness :
    (16 : Nat) ∉ ([10, 11, 12, 13, 14] : List Nat) ∧
    ((intraday_context_entries.filter fun p => p.1 == 14).map Prod.snd
        = [ctx14a, ctx14b] ∧
      ctx14a ≠ ctx14b ∧
      intraday_context 14 = ctx14b ∧
      intraday_context 14 ≠ ctx14a ∧
      intraday_context 10 = ctx10 ∧
      intraday_context 11 = ctx11 ∧
      intraday_context 12 = ctx12 ∧
      intraday_context 13 = ctx13 ∧
      intraday_context 16 = "current " ++ toString 16 ++ ":00 session." ∧
      (∃ a b, intraday_prompt 14 = a ++ ctx14b ++ b)) :=
  ⟨by decide, intraday_context_shadowing 16 (by decide)⟩

/-! ## Inbound webhook (app.py, whatsapp_webhook / handle_adhoc)

The POST handler is embedded as a function from its inputs — the current
store, the raw From value, the body text, and the classified session
string — to an explicit effect record: the TwiML response body, the
resulting store, the list of immediate attempted sends (recipient,
message), and the optionally spawned background ad-hoc task.  Delivery
failures are caught and logged in the source, so a send appears in the
attempt list regardless of its outcome.  The slow generation call of the
background task is an Except-valued oracle passed to handle_adhoc, whose
result is the one follow-up attempted send (recipient, reply). -/

/-- Python str.strip(): drop whitespace at both ends. -/
def pyStrip (s : String) : String :=
  ⟨((s.data.dropWhile Char.isWhitespace).reverse.dropWhile Char.isWhitespace).reverse⟩

def TWIML_OK : String :=
  "<?xml version=\"1.0\" encoding=\"UTF-8\"?><Response></Response>"

def subscribe_reply : String :=
  "✅  *Subscribed to India Stock Alerts!*\n\n📅  *Automated Alerts (Mon–Fri IST)*\n    9:20 AM  – Market Open Picks\n   10:00 AM  – Hourly Update\n   11:00 AM  – Hourly Update\n   12:00 PM  – Noon Update\n    1:00 PM  – Hourly Update\n    2:00 PM  – Hourly Update\n    2:30 PM  – Pre-Close Picks\n    3:00 PM  – Closing Picks\n\n📲  *Message anytime* for instant picks!\n    Market hours  → Live intraday picks\n    Night time    → Tomorrow\x27s watchlist\n    Weekend       → Next week\x27s picks\n\nCommands: *stop* | *picks* | *help*\n\n⚠️  For educational purposes only."

def unsubscribe_reply : String :=
  "❌  Unsubscribed. Send *start* to re-subscribe anytime."

def help_reply : String :=
  "📋  *Commands*\n\n  *start*  – Subscribe to auto alerts\n  *stop*   – Unsubscribe\n  *picks*  – Instant stock picks\n  *help*   – This menu\n\n💡  Or send *any message* for smart picks!\n\n  📈 Market hours → Intraday picks\n  🌙 Night time   → Tomorrow\x27s watchlist\n  📅 Weekend      → Next week picks"

def wait_msg_entries : List (String × String) :=
  [("market", "🔍  Analyzing live market data...\nPicks arriving in ~30 sec ⏳"),
   ("pre_open", "🌄  Checking pre-market signals...\nPicks arriving in ~30 sec ⏳"),
   ("post_close", "📊  Building tomorrow\x27s watchlist...\nPicks arriving in ~30 sec ⏳"),
   ("night", "🌙  Preparing tomorrow\x27s picks...\nPicks arriving in ~30 sec ⏳"),
   ("weekend", "📅  Scanning next week\x27s opportunities...\nPicks arriving in ~30 sec ⏳")]

def pyDictGetStr (entries : List (String × String)) (k : String) : Option String :=
  (entries.reverse.find? fun p => p.1 == k).map Prod.snd

def wait_msg (session : String) : String :=
  (pyDictGetStr wait_msg_entries session).getD
    "⏳  Analyzing... picks arriving in ~30 sec"

structure WebhookEffect where
  response : String
  store : List String
  sends : List (String × String)
  spawned : Option String
deriving DecidableEq

def whatsapp_webhook (store : List String) (fromRaw body : String)
    (session : String) : WebhookEffect :=
  let from_number := pyStrip (stripWhatsapp fromRaw)
  let cmd := (pyStrip body).toLower
  if from_number = "" then
    ⟨TWIML_OK, store, [], none⟩
  else if cmd ∈ (["start", "subscribe", "hi", "hello", "hey"] : List String) then
    ⟨TWIML_OK, SubscriberStore.add store from_number,
      [(from_number, subscribe_reply)], none⟩
  else if cmd ∈ (["stop", "unsubscribe"] : List String) then
    ⟨TWIML_OK, SubscriberStore.remove store from_number,
      [(from_number, unsubscribe_reply)], none⟩
  else if cmd = "help" then
    ⟨TWIML_OK, store, [(from_number, help_reply)], none⟩
  else
    ⟨TWIML_OK, SubscriberStore.add store from_number,
      [(from_number, wait_msg session)], some from_number⟩

/-- Python str(e)[:120] on the diagnostic. -/
def pyTake120 (s : String) : String :=
  ⟨s.data.take 120⟩

def adhoc_error_reply (e : String) : String :=
  "⚠️  Sorry, couldn\x27t generate picks right now.\nPlease try again in a minute.\n\n_" ++
    pyTake120 e ++ "_"

def handle_adhoc (from_number : String) (session dtStr : String)
    (gen : Except String Report) : String × String :=
  let reply :=
    match gen with
    | Except.ok report =>
        if session = "market" then format_adhoc_message dtStr report
        else if session = "pre_open" then format_pre_open_message dtStr report
        else if session = "night" ∨ session = "post_close" then
          format_night_message dtStr report
        else format_weekend_message dtStr report
    | Except.error e => adhoc_error_reply e
  (from_number, reply)

/-- C9: every inbound message from a non-empty normalized sender leads to
at least one attempted reply delivery to that sender: each webhook branch
attempts exactly one immediate reply to the sender, any spawned
background task targets the sender, the background task always attempts
its one follow-up delivery to the sender whatever the generation outcome,
and a generation failure is converted into the degraded apology reply
rather than propagated. -/
theorem inbound_always_replies (store : List String)
    (fromRaw body session dtStr : String) (gen : Except String Report)
    (hne : pyStrip (stripWhatsapp fromRaw) ≠ "") :
    (whatsapp_webhook store fromRaw body session).sends.map Prod.fst
      = [pyStrip (stripWhatsapp fromRaw)] ∧
    ((whatsapp_webhook store fromRaw body session).spawned = none ∨
      (whatsapp_webhook store fromRaw body session).spawned
        = some (pyStrip (stripWhatsapp fromRaw))) ∧
    (handle_adhoc (pyStrip (stripWhatsapp fromRaw)) session dtStr gen).1
      = pyStrip (stripWhatsapp fromRaw) ∧
    (∀ e, (handle_adhoc (pyStrip (stripWhatsapp fromRaw)) session dtStr
      (Except.error e)).2 = adhoc_error_reply e) := by
  refine ⟨?_, ?_, rfl, fun e => rfl⟩ <;>
    · simp only [whatsapp_webhook]
      rw [if_neg hne]
      split_ifs <;> simp

/-- Witness for C9 at a concrete inbound message with a failing
generation oracle. -/
theorem inbound_always_replies_witness :
    pyStrip (stripWhatsapp "whatsapp:+9111") ≠ "" ∧
    ((whatsapp_webhook [] "whatsapp:+9111" "picks now" "market").sends.map Prod.fst
        = [pyStrip (stripWhatsapp "whatsapp:+9111")] ∧
      ((whatsapp_webhook [] "whatsapp:+9111" "picks now" "market").spawned = none ∨
        (whatsapp_webhook [] "whatsapp:+9111" "picks now" "market").spawned
          = some (pyStrip (stripWhatsapp "whatsapp:+9111"))) ∧
      (handle_adhoc (pyStrip (stripWhatsapp "whatsapp:+9111")) "market" "01 Jan 10:00 AM"
          (Except.error "boom")).1 = pyStrip (stripWhatsapp "whatsapp:+9111") ∧
      (∀ e, (handle_adhoc (pyStrip (stripWhatsapp "whatsapp:+9111")) "market"
        "01 Jan 10:00 AM" (Except.error e)).2 = adhoc_error_reply e)) :=
  ⟨by decide, inbound_always_replies [] "whatsapp:+9111" "picks now" "market"
    "01 Jan 10:00 AM" (Except.error "boom") (by decide)⟩

/-- C10: when the From field normalizes to the empty string, the webhook
returns the success TwiML response with no attempted reply delivery, no
store mutation, and no spawned background task. -/
theorem webhook_empty_from (store : List String) (fromRaw body session : String)
    (h : pyStrip (stripWhatsapp fromRaw) = "") :
    whatsapp_webhook store fromRaw body session
      = ⟨TWIML_OK, store, [], none⟩ := by
  simp only [whatsapp_webhook]
  rw [if_pos h]

/-- Witness for C10 at the concrete From value "whatsapp:" (which
normalizes to the empty string). -/
theorem webhook_empty_from_witness :
    pyStrip (stripWhatsapp "whatsapp:") = "" ∧
    whatsapp_webhook ["+911234"] "whatsapp:" "hi" "market"
      = ⟨TWIML_OK, ["+911234"], [], none⟩ :=
  ⟨by decide, webhook_empty_from ["+911234"] "whatsapp:" "hi" "market" (by decide)⟩

end StockAlerts
